import Mathlib

/-!
Shallow embedding of the DocCare appointment-booking application.

The embedding models the Firestore-backed storage layer
(`client/src/lib/firestore.ts`), the local-storage fallback tier
(`client/src/lib/tempStorage.ts`) and the booking flow of the
`BookAppointment` page.  Firestore collections are modelled as lists of
documents; `addDoc` appends a document with a caller-supplied generated id;
`updateDoc` updates the document with the given id and fails (`none`) when
no such document exists; `deleteDoc` removes the document with the given id;
`serverTimestamp()` is modelled by an explicit `now : Nat` parameter; a
Firestore query with `where` and `orderBy` clauses is modelled as a filter
followed by a sort on the query keys.
-/

namespace DocCare

/-- Appointment status values used by the application
(`'pending' | 'confirmed' | 'declined' | 'completed'`). -/
inductive Status where
  | pending
  | confirmed
  | declined
  | completed
deriving DecidableEq

/-- A document of the `timeSlots` collection.  `createdAt` and `updatedAt`
are optional because a freshly created slot has no `updatedAt` field. -/
structure TimeSlot where
  id : String
  doctorId : String
  date : String
  time : String
  isBooked : Bool
  createdAt : Option Nat := none
  updatedAt : Option Nat := none
deriving DecidableEq

/-- A document of the `appointments` collection, with the denormalized
snapshot fields copied at booking time. -/
structure Appointment where
  id : String
  doctorId : String
  patientId : String
  doctorName : String
  patientName : String
  patientAge : Option Nat
  patientGender : Option String
  specialty : String
  date : String
  time : String
  status : Status
  createdAt : Nat
  updatedAt : Nat
deriving DecidableEq

/-- A document of the `users` collection.  `specialty` is present only on
doctor documents, `age`/`gender` only on patient documents. -/
structure UserDoc where
  uid : String
  email : String
  name : String
  role : String
  specialty : Option String := none
  age : Option Nat := none
  gender : Option String := none
  createdAt : Option Nat := none
  updatedAt : Option Nat := none
deriving DecidableEq

/-- The state of the Firestore database: the three collections used by the
application. -/
structure Store where
  users : List UserDoc
  timeSlots : List TimeSlot
  appointments : List Appointment
deriving DecidableEq

/-- The `selectedDoctor` value of the `BookAppointment` page
(a `Doctor`: uid, name and specialty are all present). -/
structure Doctor where
  uid : String
  name : String
  specialty : String
deriving DecidableEq

/-- The logged-in `user` from the auth context, as read by the
`BookAppointment` page. -/
structure SessionUser where
  uid : String
  name : String
  role : String
  age : Option Nat := none
  gender : Option String := none
deriving DecidableEq

/-- `createUserDocument` (firestore.ts): `setDoc` on `users/{uid}` writes the
user data together with fresh `createdAt`/`updatedAt` timestamps,
overwriting any existing document with that key. -/
def createUserDocument (userData : UserDoc) (now : Nat) (store : Store) : Store :=
  { store with users :=
      { userData with createdAt := some now, updatedAt := some now } ::
        store.users.filter (fun u => !(u.uid == userData.uid)) }

/-- `getUserDocument` (firestore.ts): point lookup of `users/{uid}`,
returning `none` when the document does not exist. -/
def getUserDocument (uid : String) (store : Store) : Option UserDoc :=
  store.users.find? (fun u => u.uid == uid)

/-- Input of `createTimeSlot`: `Omit<TimeSlot, 'id'>`. -/
structure TimeSlotData where
  doctorId : String
  date : String
  time : String
  isBooked : Bool
deriving DecidableEq

/-- `createTimeSlot` (firestore.ts): `addDoc` on the `timeSlots` collection
with a `createdAt` timestamp; the returned value `{ id, ...timeSlotData }`
does not carry the timestamp.  There is no duplicate check and no date
check. -/
def createTimeSlot (timeSlotData : TimeSlotData) (newId : String) (now : Nat)
    (store : Store) : TimeSlot × Store :=
  let stored : TimeSlot :=
    { id := newId, doctorId := timeSlotData.doctorId, date := timeSlotData.date,
      time := timeSlotData.time, isBooked := timeSlotData.isBooked,
      createdAt := some now }
  ({ stored with createdAt := none },
   { store with timeSlots := store.timeSlots ++ [stored] })

/-- Query ordering used by the time-slot queries: `orderBy('date'),
orderBy('time')`, i.e. ascending lexicographic on the `(date, time)`
string pair. -/
def slotLe (a b : TimeSlot) : Prop :=
  a.date < b.date ∨ (a.date = b.date ∧ a.time ≤ b.time)

instance : DecidableRel slotLe := fun a b => by
  unfold slotLe; exact inferInstance

instance : IsTotal TimeSlot slotLe where
  total a b := by
    rcases lt_trichotomy a.date b.date with h | h | h
    · exact Or.inl (Or.inl h)
    · rcases le_total a.time b.time with ht | ht
      · exact Or.inl (Or.inr ⟨h, ht⟩)
      · exact Or.inr (Or.inr ⟨h.symm, ht⟩)
    · exact Or.inr (Or.inl h)

instance : IsTrans TimeSlot slotLe where
  trans a b c hab hbc := by
    rcases hab with h1 | ⟨e1, t1⟩ <;> rcases hbc with h2 | ⟨e2, t2⟩
    · exact Or.inl (h1.trans h2)
    · exact Or.inl (lt_of_lt_of_eq h1 e2)
    · exact Or.inl (lt_of_eq_of_lt e1 h2)
    · exact Or.inr ⟨e1.trans e2, t1.trans t2⟩

/-- `getDoctorTimeSlots` (firestore.ts): query on `timeSlots` with
`where('doctorId','==',doctorId)`, `where('isBooked','==',false)`,
`orderBy('date'), orderBy('time')`. -/
def getDoctorTimeSlots (doctorId : String) (store : Store) : List TimeSlot :=
  (store.timeSlots.filter (fun s => s.doctorId == doctorId && !s.isBooked)).insertionSort slotLe

/-- JavaScript `x || dflt` on an optional string field: the default is used
when the field is absent or the empty string. -/
def jsOr (s : Option String) (dflt : String) : String :=
  match s with
  | some v => if v = "" then dflt else v
  | none => dflt

/-- `getAvailableTimeSlots` (firestore.ts): query on `timeSlots` with
`where('isBooked','==',false)`, `orderBy('date'), orderBy('time')`, then for
each slot a lookup of the owning doctor to attach
`doctorName` (`doctor?.name || 'Unknown Doctor'`) and
`specialty` (`doctor?.specialty || 'General'`). -/
def getAvailableTimeSlots (store : Store) : List (TimeSlot × String × String) :=
  ((store.timeSlots.filter (fun s => !s.isBooked)).insertionSort slotLe).map (fun slot =>
    match getUserDocument slot.doctorId store with
    | some d => (slot, if d.name = "" then "Unknown Doctor" else d.name,
                 jsOr d.specialty "General")
    | none => (slot, "Unknown Doctor", "General"))

/-- `deleteTimeSlot` (firestore.ts): `deleteDoc` on `timeSlots/{slotId}`.
No owner check and no booked check; takes no requester argument at all. -/
def deleteTimeSlot (slotId : String) (store : Store) : Store :=
  { store with timeSlots := store.timeSlots.filter (fun s => !(s.id == slotId)) }

/-- `updateTimeSlotBookingStatus` (firestore.ts): `updateDoc` on
`timeSlots/{slotId}` setting `isBooked` and `updatedAt` unconditionally;
the update fails only when the document does not exist (Firestore
`updateDoc` semantics), never because of the current value of
`isBooked`. -/
def updateTimeSlotBookingStatus (slotId : String) (isBooked : Bool) (now : Nat)
    (store : Store) : Option Store :=
  if store.timeSlots.any (fun s => s.id == slotId) then
    some { store with timeSlots := store.timeSlots.map (fun s =>
      if s.id == slotId then { s with isBooked := isBooked, updatedAt := some now } else s) }
  else
    none

/-- Input of `createAppointment`:
`Omit<Appointment, 'id' | 'createdAt' | 'updatedAt'>`. -/
structure AppointmentData where
  doctorId : String
  patientId : String
  doctorName : String
  patientName : String
  patientAge : Option Nat
  patientGender : Option String
  specialty : String
  date : String
  time : String
  status : Status
deriving DecidableEq

/-- `createAppointment` (firestore.ts): `addDoc` on the `appointments`
collection with fresh `createdAt`/`updatedAt` timestamps.  No check of any
kind is performed on the referenced slot. -/
def createAppointment (appointmentData : AppointmentData) (newId : String) (now : Nat)
    (store : Store) : Appointment × Store :=
  let appt : Appointment :=
    { id := newId, doctorId := appointmentData.doctorId,
      patientId := appointmentData.patientId,
      doctorName := appointmentData.doctorName,
      patientName := appointmentData.patientName,
      patientAge := appointmentData.patientAge,
      patientGender := appointmentData.patientGender,
      specialty := appointmentData.specialty,
      date := appointmentData.date, time := appointmentData.time,
      status := appointmentData.status, createdAt := now, updatedAt := now }
  (appt, { store with appointments := store.appointments ++ [appt] })

/-- `updateAppointmentStatus` (firestore.ts): `updateDoc` on
`appointments/{appointmentId}` setting `status` and `updatedAt`
unconditionally; there is no transition validation and no slot release.
The update fails only when the document does not exist. -/
def updateAppointmentStatus (appointmentId : String) (status : Status) (now : Nat)
    (store : Store) : Option Store :=
  if store.appointments.any (fun a => a.id == appointmentId) then
    some { store with appointments := store.appointments.map (fun a =>
      if a.id == appointmentId then { a with status := status, updatedAt := now } else a) }
  else
    none

/-- The result of the `bookAppointment` click handler: the database state
after the completed sub-steps and whether the handler reached the success
branch (landed in `catch` otherwise). -/
structure BookResult where
  store : Store
  success : Bool
deriving DecidableEq

/-- `bookAppointment` (BookAppointment page): first `createAppointment`
with the denormalized snapshot fields, then
`updateTimeSlotBookingStatus(slot.id, true)`.  There is no slot lookup, no
booked check, and no rollback: a failure of the second step leaves the
appointment created by the first step in place. -/
def bookAppointment (selectedDoctor : Doctor) (selectedTimeSlot : TimeSlot)
    (user : SessionUser) (newApptId : String) (now : Nat) (store : Store) : BookResult :=
  let data : AppointmentData :=
    { doctorId := selectedDoctor.uid, patientId := user.uid,
      doctorName := selectedDoctor.name, patientName := user.name,
      patientAge := if user.role == "patient" then user.age else none,
      patientGender := if user.role == "patient" then user.gender else none,
      specialty := selectedDoctor.specialty,
      date := selectedTimeSlot.date, time := selectedTimeSlot.time,
      status := Status.pending }
  let created := createAppointment data newApptId now store
  match updateTimeSlotBookingStatus selectedTimeSlot.id true now created.2 with
  | some store2 => { store := store2, success := true }
  | none => { store := created.2, success := false }

/-- The state of the local-storage fallback tier (tempStorage.ts). -/
structure TempState where
  users : List UserDoc
  timeSlots : List TimeSlot
  appointments : List Appointment
deriving DecidableEq

/-- Input of `tempCreateAppointment`: `Omit<Appointment, 'id'>`, so the
caller supplies the timestamps as well. -/
structure TempAppointmentInput where
  doctorId : String
  patientId : String
  doctorName : String
  patientName : String
  patientAge : Option Nat
  patientGender : Option String
  specialty : String
  date : String
  time : String
  status : Status
  createdAt : Nat
  updatedAt : Nat
deriving DecidableEq

/-- `tempCreateAppointment` (tempStorage.ts): appends the appointment with a
generated id, then maps over all stored time slots setting `isBooked := true`
on every slot whose `(doctorId, date, time)` equals the appointment's
`(doctorId, date, time)` and leaving every other slot unchanged. -/
def tempCreateAppointment (appointment : TempAppointmentInput) (newId : String)
    (state : TempState) : Appointment × TempState :=
  let newAppointment : Appointment :=
    { id := newId, doctorId := appointment.doctorId,
      patientId := appointment.patientId,
      doctorName := appointment.doctorName,
      patientName := appointment.patientName,
      patientAge := appointment.patientAge,
      patientGender := appointment.patientGender,
      specialty := appointment.specialty,
      date := appointment.date, time := appointment.time,
      status := appointment.status,
      createdAt := appointment.createdAt, updatedAt := appointment.updatedAt }
  let appointments := state.appointments ++ [newAppointment]
  let updatedSlots := state.timeSlots.map (fun slot =>
    if slot.doctorId == appointment.doctorId &&
       slot.date == appointment.date &&
       slot.time == appointment.time then
      { slot with isBooked := true }
    else
      slot)
  (newAppointment, { state with appointments := appointments, timeSlots := updatedSlots })

/-- `tempDeleteTimeSlot` (tempStorage.ts): removes the slot with the given
id and reports whether anything was removed; no owner or booked check. -/
def tempDeleteTimeSlot (id : String) (state : TempState) : Bool × TempState :=
  let filteredSlots := state.timeSlots.filter (fun slot => !(slot.id == id))
  if filteredSlots.length < state.timeSlots.length then
    (true, { state with timeSlots := filteredSlots })
  else
    (false, state)

/-- `tempGetAvailableSlots` (tempStorage.ts): the stored slots, optionally
filtered by doctor, then filtered to `!slot.isBooked`; no sorting. -/
def tempGetAvailableSlots (doctorId : Option String) (state : TempState) : List TimeSlot :=
  let timeSlots : List TimeSlot :=
    match doctorId with
    | some d => state.timeSlots.filter (fun slot => slot.doctorId == d)
    | none => state.timeSlots
  timeSlots.filter (fun slot => !slot.isBooked)

/-! Concrete fixtures used by counterexamples and witnesses. -/

/-- A doctor document in the `users` collection. -/
def drUser : UserDoc :=
  { uid := "d1", email := "doc@example.com", name := "Dr. Jones", role := "doctor",
    specialty := some "cardiology" }

/-- The same doctor as the `selectedDoctor` of the booking page. -/
def drRef : Doctor := { uid := "d1", name := "Dr. Jones", specialty := "cardiology" }

/-- An open slot owned by `d1`. -/
def slotOpen : TimeSlot :=
  { id := "s1", doctorId := "d1", date := "2024-06-01", time := "09:00", isBooked := false }

/-- The same slot, already booked. -/
def slotTaken : TimeSlot := { slotOpen with isBooked := true }

/-- A slot reference whose id is absent from the store (a stale read). -/
def slotGhost : TimeSlot :=
  { id := "s9", doctorId := "d1", date := "2024-06-02", time := "10:00", isBooked := false }

/-- A logged-in patient. -/
def patientA : SessionUser :=
  { uid := "p1", name := "Alice", role := "patient", age := some 30, gender := some "female" }

/-- A second logged-in patient. -/
def patientB : SessionUser :=
  { uid := "p2", name := "Bob", role := "patient", age := some 40, gender := some "male" }

/-- Store with one doctor and one open slot. -/
def storeOpen : Store := { users := [drUser], timeSlots := [slotOpen], appointments := [] }

/-- Store with one doctor and one already-booked slot. -/
def storeTaken : Store := { users := [drUser], timeSlots := [slotTaken], appointments := [] }

/-- A completed appointment on record. -/
def apptDone : Appointment :=
  { id := "a1", doctorId := "d1", patientId := "p1", doctorName := "Dr. Jones",
    patientName := "Alice", patientAge := some 30, patientGender := some "female",
    specialty := "cardiology", date := "2024-06-01", time := "09:00",
    status := Status.completed, createdAt := 1, updatedAt := 3 }

/-- A pending appointment on record. -/
def apptPending : Appointment := { apptDone with status := Status.pending, updatedAt := 1 }

/-- Store holding a completed appointment. -/
def storeDone : Store := { users := [drUser], timeSlots := [slotTaken], appointments := [apptDone] }

/-- Store holding a booked slot and the pending appointment that booked it. -/
def storePending : Store :=
  { users := [drUser], timeSlots := [slotTaken], appointments := [apptPending] }

/-- An open slot on the later date. -/
def slotLater : TimeSlot :=
  { id := "t1", doctorId := "d1", date := "2024-06-05", time := "09:00", isBooked := false }

/-- An open slot on the earlier date. -/
def slotEarlier : TimeSlot :=
  { id := "t2", doctorId := "d1", date := "2024-06-04", time := "09:00", isBooked := false }

/-- A fallback-tier state storing two open slots in descending date order. -/
def tempUnsorted : TempState :=
  { users := [], timeSlots := [slotLater, slotEarlier], appointments := [] }

/-- The appointment document the booking page submits: the denormalized
snapshot of doctor and patient fields plus the slot's date and time, with
initial status `pending`. -/
def bookedAppt (d : Doctor) (slot : TimeSlot) (u : SessionUser) (newApptId : String)
    (now : Nat) : Appointment :=
  { id := newApptId, doctorId := d.uid, patientId := u.uid,
    doctorName := d.name, patientName := u.name,
    patientAge := if u.role == "patient" then u.age else none,
    patientGender := if u.role == "patient" then u.gender else none,
    specialty := d.specialty, date := slot.date, time := slot.time,
    status := Status.pending, createdAt := now, updatedAt := now }

/-- Result of declining the pending appointment of `storePending`. -/
def storePendingDeclined : Store :=
  (updateAppointmentStatus "a1" Status.declined 5 storePending).getD storePending

/-! Helper lemmas. -/

/-- Mapping a function that preserves a Boolean predicate over a list
preserves `List.any` of that predicate. -/
theorem any_map_of_invariant {α : Type} (l : List α) (f : α → α) (p : α → Bool)
    (h : ∀ s, p (f s) = p s) : (l.map f).any p = l.any p := by
  induction l with
  | nil => rfl
  | cons a l ih => simp [List.any_cons, ih, h]

/-- Unfolding of `bookAppointment` when a slot with the selected id exists:
the handler appends the appointment and then sets the slot booked,
reporting success. -/
theorem bookAppointment_of_present (d : Doctor) (slot : TimeSlot) (u : SessionUser)
    (i : String) (t : Nat) (st : Store)
    (h : st.timeSlots.any (fun s => s.id == slot.id) = true) :
    bookAppointment d slot u i t st =
      { store := { users := st.users,
                   timeSlots := st.timeSlots.map (fun s =>
                     if s.id == slot.id then { s with isBooked := true, updatedAt := some t } else s),
                   appointments := st.appointments ++ [bookedAppt d slot u i t] },
        success := true } := by
  unfold bookAppointment createAppointment updateTimeSlotBookingStatus bookedAppt
  simp [h]

/-- Unfolding of `bookAppointment` when no slot with the selected id exists:
the appointment is still appended, the slot update fails, and the handler
reports failure without rolling the appointment back. -/
theorem bookAppointment_of_absent (d : Doctor) (slot : TimeSlot) (u : SessionUser)
    (i : String) (t : Nat) (st : Store)
    (h : st.timeSlots.any (fun s => s.id == slot.id) = false) :
    bookAppointment d slot u i t st =
      { store := { users := st.users, timeSlots := st.timeSlots,
                   appointments := st.appointments ++ [bookedAppt d slot u i t] },
        success := false } := by
  unfold bookAppointment createAppointment updateTimeSlotBookingStatus bookedAppt
  simp [h]

/-- The slots of the open-slot listing are the open slots of the store in
query order. -/
theorem fst_getAvailableTimeSlots (store : Store) :
    (getAvailableTimeSlots store).map Prod.fst =
      (store.timeSlots.filter (fun s => !s.isBooked)).insertionSort slotLe := by
  unfold getAvailableTimeSlots
  rw [List.map_map]
  conv_rhs => rw [← List.map_id ((store.timeSlots.filter (fun s => !s.isBooked)).insertionSort slotLe)]
  apply List.map_congr_left
  intro a _
  dsimp only [Function.comp, id]
  rcases hgd : getUserDocument a.doctorId store with _ | d <;> simp [hgd]

/-! Claim theorems. -/

/-- C1 counterexample: in one legal interleaving of two concurrent `book`
calls on the same open slot (here: one completes, then the other runs),
both calls succeed — the claimed `exactly one succeeds, the other fails
with ConflictError` is false, and two appointments are created for the one
slot. -/
theorem book_same_slot_twice_both_succeed :
    (bookAppointment drRef slotOpen patientA "a1" 1 storeOpen).success = true ∧
    (bookAppointment drRef slotOpen patientB "a2" 2
      (bookAppointment drRef slotOpen patientA "a1" 1 storeOpen).store).success = true ∧
    (bookAppointment drRef slotOpen patientB "a2" 2
      (bookAppointment drRef slotOpen patientA "a1" 1 storeOpen).store).store.appointments.length = 2 := by
  decide

/-- C1 (amended): the booked flag is written by an unconditional caller-side
update with no conflict detection, so any two `book` calls on the same slot
(whatever its booked state) both succeed and both create an appointment; no
`ConflictError` exists and the false-to-true transition is not enforced
atomically at the storage layer. -/
theorem bookAppointment_no_conflict_check (st : Store) (d1 d2 : Doctor) (slot : TimeSlot)
    (u1 u2 : SessionUser) (i1 i2 : String) (t1 t2 : Nat)
    (h : st.timeSlots.any (fun s => s.id == slot.id) = true) :
    (bookAppointment d1 slot u1 i1 t1 st).success = true ∧
    (bookAppointment d2 slot u2 i2 t2 (bookAppointment d1 slot u1 i1 t1 st).store).success = true ∧
    (bookAppointment d2 slot u2 i2 t2
      (bookAppointment d1 slot u1 i1 t1 st).store).store.appointments.length
      = st.appointments.length + 2 := by
  have e1 := bookAppointment_of_present d1 slot u1 i1 t1 st h
  have hp : (bookAppointment d1 slot u1 i1 t1 st).store.timeSlots.any
      (fun s => s.id == slot.id) = true := by
    rw [e1]
    dsimp only
    rw [any_map_of_invariant]
    · exact h
    · intro s
      by_cases hs : (s.id == slot.id) = true <;> simp [hs]
  have e2 := bookAppointment_of_present d2 slot u2 i2 t2 _ hp
  refine ⟨by rw [e1], by rw [e2], ?_⟩
  rw [e2]
  dsimp only
  rw [e1]
  dsimp only
  simp

/-- C1 witness: both sequential `book` calls on a slot that is already
booked succeed, adding two appointments. -/
theorem bookAppointment_no_conflict_check_witness :
    (bookAppointment drRef slotTaken patientA "b1" 3 storeTaken).success = true ∧
    (bookAppointment drRef slotTaken patientB "b2" 4
      (bookAppointment drRef slotTaken patientA "b1" 3 storeTaken).store).success = true ∧
    (bookAppointment drRef slotTaken patientB "b2" 4
      (bookAppointment drRef slotTaken patientA "b1" 3 storeTaken).store).store.appointments.length
      = storeTaken.appointments.length + 2 :=
  bookAppointment_no_conflict_check storeTaken drRef drRef slotTaken patientA patientB
    "b1" "b2" 3 4 (by decide)

/-- C2 counterexample: when the slot update fails (stale slot id), the
`book` call reports failure but the appointment created by the first step
remains — a partially-applied state, contradicting both the claimed
rollback and the claimed slot-booked-before-appointment-create ordering. -/
theorem book_failure_leaves_partial_state :
    (bookAppointment drRef slotGhost patientA "a1" 1 storeOpen).success = false ∧
    (bookAppointment drRef slotGhost patientA "a1" 1 storeOpen).store.appointments.length = 1 := by
  decide

/-- C2 (amended): `book` creates the appointment first and only then marks
the slot booked; there is no compensating rollback, so when the slot update
fails after the appointment is created, the call fails leaving the
appointment in place and the slot collection untouched. -/
theorem bookAppointment_create_before_mark_no_rollback (d : Doctor) (slot : TimeSlot)
    (u : SessionUser) (i : String) (t : Nat) (st : Store)
    (h : st.timeSlots.any (fun s => s.id == slot.id) = false) :
    (bookAppointment d slot u i t st).success = false ∧
    (bookAppointment d slot u i t st).store.appointments =
      st.appointments ++ [bookedAppt d slot u i t] ∧
    (bookAppointment d slot u i t st).store.timeSlots = st.timeSlots := by
  rw [bookAppointment_of_absent d slot u i t st h]
  exact ⟨rfl, rfl, rfl⟩

/-- C2 witness: a concrete failed booking that leaves the created
appointment behind. -/
theorem bookAppointment_create_before_mark_no_rollback_witness :
    (bookAppointment drRef slotGhost patientB "b1" 3 storeTaken).success = false ∧
    (bookAppointment drRef slotGhost patientB "b1" 3 storeTaken).store.appointments =
      storeTaken.appointments ++ [bookedAppt drRef slotGhost patientB "b1" 3] ∧
    (bookAppointment drRef slotGhost patientB "b1" 3 storeTaken).store.timeSlots =
      storeTaken.timeSlots :=
  bookAppointment_create_before_mark_no_rollback drRef slotGhost patientB "b1" 3 storeTaken
    (by decide)

/-- C3 counterexample: booking a slot whose booked flag is already `true`
succeeds and creates a second appointment — the claimed `SlotBooked`
failure does not exist. -/
theorem book_booked_slot_succeeds :
    (bookAppointment drRef slotTaken patientB "a2" 2 storeDone).success = true ∧
    (bookAppointment drRef slotTaken patientB "a2" 2 storeDone).store.appointments.length = 2 := by
  decide

/-- C3 (amended): `book` performs no slot lookup and no booked check:
whenever a slot with the selected id exists — booked or not — it succeeds,
appending a `pending` appointment that snapshots the doctor name,
specialty, patient name and the slot's date and time.  (When the id is
absent the call fails only because the flag update fails, not from a
`SlotNotFound` lookup; see C2.) -/
theorem bookAppointment_unconditional_snapshot (d : Doctor) (slot : TimeSlot)
    (u : SessionUser) (i : String) (t : Nat) (st : Store)
    (h : st.timeSlots.any (fun s => s.id == slot.id) = true) :
    (bookAppointment d slot u i t st).success = true ∧
    (bookAppointment d slot u i t st).store.appointments =
      st.appointments ++ [bookedAppt d slot u i t] ∧
    (bookedAppt d slot u i t).status = Status.pending ∧
    (bookedAppt d slot u i t).doctorName = d.name ∧
    (bookedAppt d slot u i t).specialty = d.specialty ∧
    (bookedAppt d slot u i t).patientName = u.name ∧
    (bookedAppt d slot u i t).date = slot.date ∧
    (bookedAppt d slot u i t).time = slot.time := by
  rw [bookAppointment_of_present d slot u i t st h]
  exact ⟨rfl, rfl, rfl, rfl, rfl, rfl, rfl, rfl⟩

/-- C3 witness: booking an already-booked slot succeeds with the snapshot
appointment appended. -/
theorem bookAppointment_unconditional_snapshot_witness :
    (bookAppointment drRef slotTaken patientA "c1" 5 storeTaken).success = true ∧
    (bookAppointment drRef slotTaken patientA "c1" 5 storeTaken).store.appointments =
      storeTaken.appointments ++ [bookedAppt drRef slotTaken patientA "c1" 5] ∧
    (bookedAppt drRef slotTaken patientA "c1" 5).status = Status.pending ∧
    (bookedAppt drRef slotTaken patientA "c1" 5).doctorName = drRef.name ∧
    (bookedAppt drRef slotTaken patientA "c1" 5).specialty = drRef.specialty ∧
    (bookedAppt drRef slotTaken patientA "c1" 5).patientName = patientA.name ∧
    (bookedAppt drRef slotTaken patientA "c1" 5).date = slotTaken.date ∧
    (bookedAppt drRef slotTaken patientA "c1" 5).time = slotTaken.time :=
  bookAppointment_unconditional_snapshot drRef slotTaken patientA "c1" 5 storeTaken (by decide)

/-- C4 counterexample: updating a `completed` appointment back to `pending`
succeeds — a backward transition the claim says must fail with
`InvalidTransition`. -/
theorem status_update_backward_transition :
    (updateAppointmentStatus "a1" Status.pending 5 storeDone).map
      (fun st => st.appointments.map Appointment.status) = some [Status.pending] := by
  decide

/-- C4 (amended): `updateAppointmentStatus` applies any requested status
unconditionally: for every existing appointment and every target status the
update succeeds and the appointment ends with exactly the requested status;
no `InvalidTransition` error exists at the storage layer (only the
dashboard UI restricts itself to confirming or declining pending
appointments). -/
theorem updateAppointmentStatus_unrestricted (st : Store) (apptId : String) (s : Status)
    (now : Nat) (h : st.appointments.any (fun a => a.id == apptId) = true) :
    (updateAppointmentStatus apptId s now st).isSome = true ∧
    ((updateAppointmentStatus apptId s now st).getD st).appointments.all
      (fun a => !(a.id == apptId) || decide (a.status = s)) = true ∧
    ((updateAppointmentStatus apptId s now st).getD st).appointments.any
      (fun a => a.id == apptId) = true := by
  unfold updateAppointmentStatus
  simp only [h, if_true]
  refine ⟨rfl, ?_, ?_⟩
  · dsimp only [Option.getD]
    rw [List.all_eq_true]
    intro x hx
    rcases List.mem_map.mp hx with ⟨a, _, rfl⟩
    by_cases hid : (a.id == apptId) = true <;> simp [hid]
  · dsimp only [Option.getD]
    rw [any_map_of_invariant]
    · exact h
    · intro a
      by_cases hid : (a.id == apptId) = true <;> simp [hid]

/-- C4 witness: the invalid pair pending-to-completed is applied without
error. -/
theorem updateAppointmentStatus_unrestricted_witness :
    (updateAppointmentStatus "a1" Status.completed 9 storePending).isSome = true ∧
    ((updateAppointmentStatus "a1" Status.completed 9 storePending).getD storePending).appointments.all
      (fun a => !(a.id == "a1") || decide (a.status = Status.completed)) = true ∧
    ((updateAppointmentStatus "a1" Status.completed 9 storePending).getD storePending).appointments.any
      (fun a => a.id == "a1") = true :=
  updateAppointmentStatus_unrestricted storePending "a1" Status.completed 9 (by decide)

/-- C5 counterexample: declining the pending appointment leaves its slot's
`isBooked` flag `true` and the open-slot listing empty — the slot does not
reappear in `listOpenSlots`. -/
theorem decline_does_not_release_slot :
    (updateAppointmentStatus "a1" Status.declined 5 storePending).map
      (fun st => (st.timeSlots.map TimeSlot.isBooked, getAvailableTimeSlots st)) =
      some ([true], []) := by
  decide

/-- C5 (amended): a status update never touches the `timeSlots` collection:
for every transition — `declined` included — the slots and therefore the
open-slot listing are exactly those before the update, so a declined
appointment's slot stays booked instead of being released. -/
theorem updateAppointmentStatus_preserves_slots (st : Store) (apptId : String) (s : Status)
    (now : Nat) (st' : Store) (h : updateAppointmentStatus apptId s now st = some st') :
    st'.timeSlots = st.timeSlots ∧ getAvailableTimeSlots st' = getAvailableTimeSlots st := by
  unfold updateAppointmentStatus at h
  by_cases hc : st.appointments.any (fun a => a.id == apptId) = true
  · simp only [hc, if_true, Option.some.injEq] at h
    subst h
    exact ⟨rfl, rfl⟩
  · simp only [hc] at h
    simp at h

/-- C5 witness: the concrete decline leaves the slot collection and the
open-slot listing unchanged. -/
theorem updateAppointmentStatus_preserves_slots_witness :
    storePendingDeclined.timeSlots = storePending.timeSlots ∧
    getAvailableTimeSlots storePendingDeclined = getAvailableTimeSlots storePending :=
  updateAppointmentStatus_preserves_slots storePending "a1" Status.declined 5
    storePendingDeclined (by decide)

/-- C6 counterexample: publishing a slot whose `(providerId, date, time)`
tuple collides with an existing open slot succeeds, leaving two identical
open slots — the claimed `DuplicateSlot` failure does not exist. -/
theorem duplicate_open_slot_created :
    ((createTimeSlot { doctorId := "d1", date := "2024-06-01", time := "09:00",
                       isBooked := false } "s2" 7 storeOpen).2.timeSlots.filter (fun s =>
          s.doctorId == "d1" && s.date == "2024-06-01" && s.time == "09:00" &&
          !s.isBooked)).length = 2 := by
  decide

/-- C6 (amended): `createTimeSlot` performs no validation at all: for every
input — duplicate `(providerId, date, time)` tuples and past dates
included — it succeeds and appends the new slot document; the only date
restriction is the form's `min` attribute in the UI, and no
`DuplicateSlot` or `InvalidDate` failure exists in code. -/
theorem createTimeSlot_always_appends (data : TimeSlotData) (newId : String) (now : Nat)
    (store : Store) :
    (createTimeSlot data newId now store).2.timeSlots =
      store.timeSlots ++
        [{ id := newId, doctorId := data.doctorId, date := data.date, time := data.time,
           isBooked := data.isBooked, createdAt := some now, updatedAt := none }] := rfl

/-- C7 counterexample: a booked slot is deleted by `deleteTimeSlot` — the
claimed `SlotBooked` guard does not exist (nor does an ownership check:
the operation takes no requester at all). -/
theorem booked_slot_deleted :
    (deleteTimeSlot "s1" storeTaken).timeSlots = [] := by
  decide

/-- C7 (amended): `deleteTimeSlot` removes the slot with the given id
unconditionally and leaves every other slot: it takes no requester
argument, checks neither ownership nor the booked flag, and deletes booked
slots; only the UI hides the delete button for booked slots. -/
theorem deleteTimeSlot_unconditional (slotId : String) (store : Store) (s : TimeSlot) :
    s ∈ (deleteTimeSlot slotId store).timeSlots ↔
      s ∈ store.timeSlots ∧ (s.id == slotId) = false := by
  unfold deleteTimeSlot
  simp [List.mem_filter]

/-- C8 counterexample: the fallback-tier listing `tempGetAvailableSlots`
does not sort: on a state storing two open slots in descending date order
it returns them in that stored order, which is not ascending by
`(date, time)` — so the claimed ordering is false for this operation named
by the claim. -/
theorem temp_listing_not_sorted :
    tempGetAvailableSlots none tempUnsorted = [slotLater, slotEarlier] ∧
    ¬ List.Sorted slotLe (tempGetAvailableSlots none tempUnsorted) := by
  constructor
  · rfl
  · intro h
    have hle : slotLe slotLater slotEarlier :=
      List.rel_of_sorted_cons h slotEarlier (List.mem_singleton.mpr rfl)
    rcases hle with hlt | ⟨heq, _⟩
    · rw [String.lt_iff_toList_lt] at hlt
      exact absurd hlt (by decide)
    · exact absurd heq (by decide)

/-- C8 (amended): in the Firestore tier the open-slot listing returns
exactly the slots with `isBooked = false`, sorted ascending by
`(date, time)`; the provider-filtered variant returns exactly that
provider's open slots in the same order; a slot just published open appears
in the listing; and after a successful `book` of a slot no listing entry
carries that slot's id.  In the local-storage fallback tier,
`tempGetAvailableSlots` returns exactly the slots with `isBooked = false`
(optionally filtered by provider) but in stored order — a sublist of the
stored slot list — with no sorting. -/
theorem listOpenSlots_spec (store : Store) (state : TempState) :
    List.Sorted slotLe ((getAvailableTimeSlots store).map Prod.fst) ∧
    (∀ s : TimeSlot, s ∈ (getAvailableTimeSlots store).map Prod.fst ↔
        s ∈ store.timeSlots ∧ s.isBooked = false) ∧
    (∀ doctorId : String, List.Sorted slotLe (getDoctorTimeSlots doctorId store) ∧
      ∀ s : TimeSlot, s ∈ getDoctorTimeSlots doctorId store ↔
        s ∈ store.timeSlots ∧ s.doctorId = doctorId ∧ s.isBooked = false) ∧
    (∀ (data : TimeSlotData) (newId : String) (now : Nat), data.isBooked = false →
      ((getAvailableTimeSlots (createTimeSlot data newId now store).2).map Prod.fst).any
        (fun s => s.id == newId) = true) ∧
    (∀ (d : Doctor) (slot : TimeSlot) (u : SessionUser) (na : String) (now : Nat),
      (bookAppointment d slot u na now store).success = true →
      ((getAvailableTimeSlots (bookAppointment d slot u na now store).store).map Prod.fst).all
        (fun s => !(s.id == slot.id)) = true) ∧
    (∀ s : TimeSlot, s ∈ tempGetAvailableSlots none state ↔
        s ∈ state.timeSlots ∧ s.isBooked = false) ∧
    (∀ (d : String) (s : TimeSlot), s ∈ tempGetAvailableSlots (some d) state ↔
        s ∈ state.timeSlots ∧ s.doctorId = d ∧ s.isBooked = false) ∧
    (∀ doctorId : Option String, (tempGetAvailableSlots doctorId state).Sublist state.timeSlots) := by
  refine ⟨?_, ?_, ?_, ?_, ?_, ?_, ?_, ?_⟩
  · rw [fst_getAvailableTimeSlots]
    exact List.sorted_insertionSort slotLe _
  · intro s
    rw [fst_getAvailableTimeSlots, List.mem_insertionSort, List.mem_filter]
    simp
  · intro doctorId
    refine ⟨List.sorted_insertionSort slotLe _, ?_⟩
    intro s
    unfold getDoctorTimeSlots
    rw [List.mem_insertionSort, List.mem_filter]
    simp
  · intro data newId now h
    rw [fst_getAvailableTimeSlots, List.any_eq_true]
    refine ⟨{ id := newId, doctorId := data.doctorId, date := data.date, time := data.time,
              isBooked := data.isBooked, createdAt := some now, updatedAt := none }, ?_, ?_⟩
    · rw [List.mem_insertionSort, List.mem_filter]
      refine ⟨?_, by simp [h]⟩
      simp [createTimeSlot]
    · simp
  · intro d slot u na now hsucc
    by_cases hc : store.timeSlots.any (fun s => s.id == slot.id) = true
    · rw [bookAppointment_of_present d slot u na now store hc]
      rw [fst_getAvailableTimeSlots, List.all_eq_true]
      intro x hx
      rw [List.mem_insertionSort, List.mem_filter] at hx
      obtain ⟨hmem, hopen⟩ := hx
      dsimp only at hmem
      rcases List.mem_map.mp hmem with ⟨a, ha, rfl⟩
      cases hid : (a.id == slot.id) with
      | true => simp [hid] at hopen
      | false => simp [hid]
    · rw [bookAppointment_of_absent d slot u na now store (by simpa using hc)] at hsucc
      simp at hsucc
  · intro s
    unfold tempGetAvailableSlots
    simp [List.mem_filter]
  · intro d s
    unfold tempGetAvailableSlots
    simp [List.mem_filter]
    tauto
  · intro doctorId
    unfold tempGetAvailableSlots
    cases doctorId with
    | none => exact List.filter_sublist _
    | some d => exact (List.filter_sublist _).trans (List.filter_sublist _)

/-- C8 witness: a freshly published open slot appears in the listing, and
after booking the open slot of `storeOpen` no listing entry carries its
id. -/
theorem listOpenSlots_spec_witness :
    ((getAvailableTimeSlots (createTimeSlot { doctorId := "d1", date := "2024-06-03",
                                              time := "11:00", isBooked := false }
        "s3" 7 storeOpen).2).map Prod.fst).any
      (fun s => s.id == "s3") = true ∧
    ((getAvailableTimeSlots (bookAppointment drRef slotOpen patientA "a1" 1 storeOpen).store).map
      Prod.fst).all (fun s => !(s.id == slotOpen.id)) = true :=
  ⟨(listOpenSlots_spec storeOpen tempUnsorted).2.2.2.1
      { doctorId := "d1", date := "2024-06-03", time := "11:00", isBooked := false } "s3" 7 rfl,
   (listOpenSlots_spec storeOpen tempUnsorted).2.2.2.2.1 drRef slotOpen patientA "a1" 1 (by decide)⟩

/-- C9: the denormalized snapshot fields are frozen at creation: rewriting
a source profile (`createUserDocument`, e.g. changing the provider's
specialty) leaves the appointments collection untouched, and a status
update leaves every appointment field other than `status` and `updatedAt`
unchanged. -/
theorem appointment_snapshot_frame (st : Store) (u : UserDoc) (tu : Nat)
    (apptId : String) (s : Status) (ta : Nat) (st' : Store)
    (h : updateAppointmentStatus apptId s ta st = some st') :
    (createUserDocument u tu st).appointments = st.appointments ∧
    ∀ a' ∈ st'.appointments, ∃ a ∈ st.appointments,
      a'.id = a.id ∧ a'.doctorId = a.doctorId ∧ a'.patientId = a.patientId ∧
      a'.doctorName = a.doctorName ∧ a'.patientName = a.patientName ∧
      a'.patientAge = a.patientAge ∧ a'.patientGender = a.patientGender ∧
      a'.specialty = a.specialty ∧ a'.date = a.date ∧ a'.time = a.time ∧
      a'.createdAt = a.createdAt := by
  refine ⟨rfl, ?_⟩
  unfold updateAppointmentStatus at h
  by_cases hc : st.appointments.any (fun a => a.id == apptId) = true
  · simp only [hc, if_true, Option.some.injEq] at h
    subst h
    intro a' ha'
    rcases List.mem_map.mp ha' with ⟨a, ha, rfl⟩
    refine ⟨a, ha, ?_⟩
    by_cases hid : (a.id == apptId) = true <;>
      simp [hid]
  · simp only [hc] at h
    simp at h

/-- C9 witness: overwriting the doctor's profile with a new specialty
leaves the recorded appointments identical. -/
theorem appointment_snapshot_frame_witness :
    (createUserDocument { drUser with specialty := some "dermatology" } 9 storePending).appointments
      = storePending.appointments :=
  (appointment_snapshot_frame storePending { drUser with specialty := some "dermatology" } 9
    "a1" Status.declined 5 storePendingDeclined (by decide)).1

/-- C10: `tempCreateAppointment` always appends the appointment record, and
rewrites the slot list pointwise: a slot whose `(doctorId, date, time)`
equals the appointment's tuple (every such slot, if several match) gets
`isBooked := true`, and every slot with a different tuple is returned
unchanged. -/
theorem tempCreateAppointment_spec (appointment : TempAppointmentInput) (newId : String)
    (state : TempState) :
    (tempCreateAppointment appointment newId state).2.appointments =
      state.appointments ++ [(tempCreateAppointment appointment newId state).1] ∧
    ∀ i : Nat, (tempCreateAppointment appointment newId state).2.timeSlots[i]? =
      (state.timeSlots[i]?).map (fun slot =>
        if slot.doctorId == appointment.doctorId && slot.date == appointment.date &&
           slot.time == appointment.time then { slot with isBooked := true } else slot) := by
  refine ⟨rfl, fun i => ?_⟩
  unfold tempCreateAppointment
  simp [List.getElem?_map]

end DocCare
